import Mathlib

/-!
Verification of the VTI endpoint client (`vti_endpoint_client.py`):
the job lease and heartbeat client of the host controller.

The Python class `VtiEndpointClient` is embedded shallowly:
* a Python dict holding a job record becomes an association list `Job`
  (`dictGet` / `dictSet` model key lookup and key assignment);
* the client's mutable attributes `_job` and `_heartbeat_thread` become the
  fields of `ClientState`; `_job` distinguishes Python `None` (`Option.none`)
  from the empty dict `{}` (`some []`) because the source tests it both with
  `is None` and by truthiness;
* network requests are passed in as an `Except Unit` value: `Except.ok`
  carries the HTTP status code (and, for the lease call, the parsed JSON
  body), `Except.error` models `requests.exceptions.ConnectionError` being
  raised by `requests.post`;
* each operation returns the ordered list of side effects it performed
  (`Event`) next to its result, so that temporal ordering claims and
  "no network call" claims can be stated;
* a raised Python exception is modelled by an `Except.error` result
  (the event trace up to the raise is still reported).
-/

namespace VtiEndpoint

/-- A JSON scalar stored in a job record: the source only ever compares
status fields with integers and splits / parses string fields. -/
inductive JVal where
  | str (s : String)
  | num (n : Int)
  deriving DecidableEq, Repr

/-- A Python dict, as the ordered association list of its entries. -/
abbrev Job := List (String × JVal)

/-- Python `d[k]` as a total lookup: `none` models a `KeyError`. -/
def dictGet (j : Job) (k : String) : Option JVal :=
  (j.find? (fun p => p.1 == k)).map Prod.snd

/-- Python `d[k] = v`: replace the value in place when the key exists,
append the entry otherwise (insertion order is preserved). -/
def dictSet (j : Job) (k : String) (v : JVal) : Job :=
  if j.any (fun p => p.1 == k) then
    j.map (fun p => if p.1 == k then (k, v) else p)
  else j ++ [(k, v)]

/-- The module-level `JOB_STATUS_DICT` of the source. -/
def JOB_STATUS_DICT : List (String × Nat) :=
  [("ready", 0), ("leased", 1), ("complete", 2),
   ("infra-err", 3), ("expired", 4), ("bootup-err", 5)]

/-- Python `JOB_STATUS_DICT[k]`: `none` models a `KeyError`. -/
def jobStatusLookup (k : String) : Option Nat :=
  (JOB_STATUS_DICT.find? (fun p => p.1 == k)).map Prod.snd

/-- Python `str.split(sep)` with a one-character separator. -/
def pySplit (sep : Char) : List Char → List (List Char)
  | [] => [[]]
  | c :: cs =>
    if c = sep then [] :: pySplit sep cs
    else
      match pySplit sep cs with
      | [] => [[c]]
      | h :: t => (c :: h) :: t

/-- Python `s.split(sep)[0]` on a string. -/
def pySplitFirst (sep : Char) (s : String) : String :=
  String.mk ((pySplit sep s.data).headD [])

/-- Value of a decimal digit list, most significant first. -/
def digitsToNat (l : List Char) : Nat :=
  l.foldl (fun a c => a * 10 + (c.toNat - Char.toNat '0')) 0

/-- Python `int(s)` on a string: surrounding whitespace is stripped, an
optional sign is allowed, the rest must be a nonempty digit sequence;
`none` models a `ValueError`. -/
def pyParseInt (s : String) : Option Int :=
  let t := ((s.data.dropWhile Char.isWhitespace).reverse.dropWhile
    Char.isWhitespace).reverse
  match t with
  | [] => none
  | '+' :: ds =>
    if !ds.isEmpty && ds.all Char.isDigit then some (digitsToNat ds) else none
  | '-' :: ds =>
    if !ds.isEmpty && ds.all Char.isDigit then some (-(digitsToNat ds : Int))
    else none
  | ds =>
    if ds.all Char.isDigit then some (digitsToNat ds) else none

/-- Python `int(v)` on a job-record value: an integer is returned as is,
a string is parsed. -/
def pyToInt : JVal → Option Int
  | JVal.num n => some n
  | JVal.str s => pyParseInt s

/-- The `_heartbeat_thread` attribute: `keep_running` is `none` while the
attribute has never been assigned (so `getattr(thread, 'keep_running', True)`
reads the default `True` and `hasattr` is false); the target status and
interval are the arguments the thread was started with. -/
structure HBThread where
  keep_running : Option Bool
  status : String
  update_interval : Nat
  deriving DecidableEq, Repr

/-- The mutable attributes of a `VtiEndpointClient` instance. -/
structure ClientState where
  url : String
  job : Option Job
  heartbeat_thread : Option HBThread
  deriving DecidableEq, Repr

/-- Python truthiness of `self._job`: `None` and the empty dict are falsy. -/
def jobTruthy : Option Job → Bool
  | none => false
  | some j => !j.isEmpty

/-- An observable side effect of an operation, in program order. -/
inductive Event where
  | cancelHeartbeat
  | writeStatus (n : Nat)
  | netPost (path : String)
  | startHeartbeat (status : String) (update_interval : Nat)
  deriving DecidableEq, Repr

/-- The parsed JSON body of a `job_queue/v1/get` response: each field is
optional because the source tests membership before reading it. -/
structure QueueResponse where
  return_code : Option String
  jobs : Option (List Job)
  deriving Repr

/-- `requests.codes.ok`. -/
def codes_ok : Nat := 200

/-- `SetJobStatusFromLeasedTo(status)`: sets the current job's status to
`JOB_STATUS_DICT[status]` only when the job is not `None` and its status is
`JOB_STATUS_DICT["leased"]`. A missing `status` key or an unknown status
name raises (`Except.error`). -/
def SetJobStatusFromLeasedTo (s : ClientState) (status : String) :
    List Event × Except Unit ClientState :=
  match s.job with
  | none => ([], Except.ok s)
  | some j =>
    match dictGet j "status" with
    | none => ([], Except.error ())
    | some v =>
      match jobStatusLookup "leased" with
      | none => ([], Except.error ())
      | some leasedCode =>
        if v = JVal.num leasedCode then
          match jobStatusLookup status with
          | none => ([], Except.error ())
          | some n =>
            ([Event.writeStatus n],
             Except.ok { s with job := some (dictSet j "status" (JVal.num n)) })
        else ([], Except.ok s)

/-- `StartHeartbeat(status, update_interval)`: a new daemon thread is created
and started when no thread exists or the existing one has a `keep_running`
attribute; the fresh thread has no `keep_running` attribute yet. -/
def StartHeartbeat (s : ClientState) (status : String) (update_interval : Nat) :
    ClientState × List Event :=
  match s.heartbeat_thread with
  | none =>
    ({ s with heartbeat_thread := some ⟨none, status, update_interval⟩ },
     [Event.startHeartbeat status update_interval])
  | some t =>
    if t.keep_running.isSome then
      ({ s with heartbeat_thread := some ⟨none, status, update_interval⟩ },
       [Event.startHeartbeat status update_interval])
    else (s, [])

/-- Does the parsed response carry a `return_code` other than `"SUCCESS"`? -/
def badReturnCode (rj : QueueResponse) : Bool :=
  match rj.return_code with
  | some rc => rc != "SUCCESS"
  | none => false

/-- The tail of `LeaseJob` from the point where the `jobs` field is read:
the loop over the job list returns on its first iteration, so only the head
of the list matters; with `execute` true the head is stored as `_job` and
the heartbeat is started before the return value is built. -/
def leaseFromJobs (s : ClientState) (execute : Bool) (rj : QueueResponse) :
    List Event × Except Unit (ClientState × (Option String × Job)) :=
  match rj.jobs with
  | none => ([Event.netPost "job_queue/v1/get"], Except.ok (s, (none, [])))
  | some [] => ([Event.netPost "job_queue/v1/get"], Except.ok (s, (none, [])))
  | some (job :: _) =>
    if execute then
      let s1 := { s with job := some job }
      let p := StartHeartbeat s1 "leased" 60
      match dictGet job "test_name" with
      | some (JVal.str tn) =>
        (Event.netPost "job_queue/v1/get" :: p.2,
         Except.ok (p.1, (some (pySplitFirst '/' tn), job)))
      | _ => (Event.netPost "job_queue/v1/get" :: p.2, Except.error ())
    else
      match dictGet job "test_name" with
      | some (JVal.str tn) =>
        ([Event.netPost "job_queue/v1/get"],
         Except.ok (s, (some (pySplitFirst '/' tn), job)))
      | _ => ([Event.netPost "job_queue/v1/get"], Except.error ())

/-- `LeaseJob(hostname, execute)`: an empty (falsy) hostname short-circuits
to `(None, {})` before any network call; otherwise the queue is polled and
the response is checked for HTTP success, for a failing `return_code` and
for the presence of the `jobs` field; `response` is the outcome of
`requests.post` (`Except.error` models a raised `ConnectionError`, which
the source does not catch here). -/
def LeaseJob (s : ClientState) (hostname : String) (execute : Bool)
    (response : Except Unit (Nat × QueueResponse)) :
    List Event × Except Unit (ClientState × (Option String × Job)) :=
  if hostname = "" then ([], Except.ok (s, (none, [])))
  else
    match response with
    | Except.error e => ([Event.netPost "job_queue/v1/get"], Except.error e)
    | Except.ok (code, rj) =>
      if code ≠ codes_ok then
        ([Event.netPost "job_queue/v1/get"], Except.ok (s, (none, [])))
      else if badReturnCode rj then
        ([Event.netPost "job_queue/v1/get"], Except.ok (s, (none, [])))
      else leaseFromJobs s execute rj

/-- `StopHeartbeat(status, infra_log_url)`: sets `keep_running = False` on
the heartbeat thread (raising when no thread exists, as the attribute write
on `None` would), returns early when `_job is None`, otherwise applies the
guarded transition, attaches the log URL, posts the final record
(`response` is the outcome of that uncaught `requests.post`) and clears
`_job`. -/
def StopHeartbeat (s : ClientState) (status : String) (infra_log_url : String)
    (response : Except Unit Nat) : List Event × Except Unit ClientState :=
  match s.heartbeat_thread with
  | none => ([], Except.error ())
  | some t =>
    let s0 := { s with heartbeat_thread := some { t with keep_running := some false } }
    match s0.job with
    | none => ([Event.cancelHeartbeat], Except.ok s0)
    | some _ =>
      match SetJobStatusFromLeasedTo s0 status with
      | (ev1, Except.error e) => (Event.cancelHeartbeat :: ev1, Except.error e)
      | (ev1, Except.ok s1) =>
        let s2 := { s1 with
          job := s1.job.map (fun j => dictSet j "infra_log_url" (JVal.str infra_log_url)) }
        match response with
        | Except.error e =>
          (Event.cancelHeartbeat :: ev1 ++ [Event.netPost "job_queue/v1/heartbeat"],
           Except.error e)
        | Except.ok _ =>
          (Event.cancelHeartbeat :: ev1 ++ [Event.netPost "job_queue/v1/heartbeat"],
           Except.ok { s2 with job := none })

/-- One iteration of the `UpdateLeasedJobStatus` loop: when
`getattr(thread, 'keep_running', True)` is truthy the current record is
posted (an uncaught `ConnectionError` propagates) and the loop continues;
otherwise the loop exits without a network call. The returned Bool tells
whether the loop keeps running. -/
def heartbeatTick (keep_running : Option Bool) (response : Except Unit Nat) :
    List Event × Except Unit Bool :=
  if keep_running.getD true then
    match response with
    | Except.error e => ([Event.netPost "job_queue/v1/heartbeat"], Except.error e)
    | Except.ok _ => ([Event.netPost "job_queue/v1/heartbeat"], Except.ok true)
  else ([], Except.ok false)

/-- The prologue of `UpdateLeasedJobStatus` before its loop: returns at once
when `_job is None`, otherwise writes `JOB_STATUS_DICT[status]` into the
record (raising on an unknown status name). -/
def UpdateLeasedJobStatusEntry (s : ClientState) (status : String) :
    List Event × Except Unit ClientState :=
  match s.job with
  | none => ([], Except.ok s)
  | some j =>
    match jobStatusLookup status with
    | none => ([], Except.error ())
    | some n =>
      ([Event.writeStatus n],
       Except.ok { s with job := some (dictSet j "status" (JVal.num n)) })

/-- `CheckBootUpStatus()`: when `_job` is truthy, compares the status field
with `JOB_STATUS_DICT["bootup-err"]` (a missing status key raises);
otherwise returns `False`. -/
def CheckBootUpStatus (s : ClientState) : Except Unit Bool :=
  match s.job with
  | some j =>
    if j.isEmpty then Except.ok false
    else
      match dictGet j "status" with
      | none => Except.error ()
      | some v =>
        match jobStatusLookup "bootup-err" with
        | none => Except.error ()
        | some b => Except.ok (decide (v ≠ JVal.num b))
  | none => Except.ok false

/-- `GetJobTestType()`: when `_job` is truthy and has a `test_type` key the
value is converted with `int`, a `ValueError` being caught and logged; every
other path returns `0`. -/
def GetJobTestType (s : ClientState) : Int :=
  match s.job with
  | some j =>
    if j.isEmpty then 0
    else
      match dictGet j "test_type" with
      | none => 0
      | some v =>
        match pyToInt v with
        | some n => n
        | none => 0
  | none => 0

/-! ### Helper lemmas -/

theorem pySplit_ne_nil (sep : Char) (l : List Char) : pySplit sep l ≠ [] := by
  induction l with
  | nil => simp [pySplit]
  | cons c cs ih =>
    simp only [pySplit]
    split
    · simp
    · split
      · simp
      · simp

theorem pySplit_headD (sep : Char) (l : List Char) :
    (pySplit sep l).headD [] = l.takeWhile (fun c => c != sep) := by
  induction l with
  | nil => simp [pySplit, List.takeWhile]
  | cons c cs ih =>
    by_cases h : c = sep
    · subst h
      simp [pySplit, List.takeWhile]
    · have hps := pySplit_ne_nil sep cs
      cases hcs : pySplit sep cs with
      | nil => exact absurd hcs hps
      | cons hd tl =>
        rw [hcs] at ih
        simp only [List.headD] at ih
        simp only [pySplit, if_neg h, hcs, List.headD, List.takeWhile]
        have hb : (c != sep) = true := by simpa using h
        rw [hb]
        simp [ih]

theorem pySplitFirst_eq_takeWhile (sep : Char) (s : String) :
    pySplitFirst sep s = String.mk (s.data.takeWhile (fun c => c != sep)) := by
  unfold pySplitFirst
  rw [pySplit_headD]

/-! ### Claims -/

/-- C1: the guarded transition `SetJobStatusFromLeasedTo` changes a held
lease's status to the target only when the current status is exactly
`leased` (1): with any other current status the state is returned unchanged
(in particular a lease at `complete` (2) keeps status `complete`), and when
the current status is `leased` the status becomes the target's code. -/
theorem setJobStatusFromLeasedTo_guarded (s : ClientState) (j : Job) (v : JVal)
    (tgt : String) (hjob : s.job = some j)
    (hstat : dictGet j "status" = some v) :
    (v ≠ JVal.num 1 → SetJobStatusFromLeasedTo s tgt = ([], Except.ok s)) ∧
    (∀ n, v = JVal.num 1 → jobStatusLookup tgt = some n →
      SetJobStatusFromLeasedTo s tgt =
        ([Event.writeStatus n],
         Except.ok { s with job := some (dictSet j "status" (JVal.num n)) })) ∧
    (v = JVal.num 2 →
      SetJobStatusFromLeasedTo s tgt = ([], Except.ok s) ∧
      s.job = some j ∧ dictGet j "status" = some (JVal.num 2)) := by
  have hl : jobStatusLookup "leased" = some 1 := rfl
  refine ⟨?_, ?_, ?_⟩
  · intro hv
    simp only [SetJobStatusFromLeasedTo, hjob, hstat, hl, Nat.cast_one]
    rw [if_neg hv]
  · intro n hv htgt
    subst hv
    simp only [SetJobStatusFromLeasedTo, hjob, hstat, hl, htgt, Nat.cast_one,
      if_pos rfl, if_true]
  · intro hv
    subst hv
    refine ⟨?_, hjob, hstat⟩
    simp only [SetJobStatusFromLeasedTo, hjob, hstat, hl, Nat.cast_one]
    rw [if_neg (by decide)]

/-- Witness for C1: a lease whose status is `complete` (2) is left unchanged
by the guarded transition to `infra-err`. -/
theorem setJobStatusFromLeasedTo_guarded_witness :
    SetJobStatusFromLeasedTo ⟨"u", some [("status", JVal.num 2)], none⟩ "infra-err" =
      ([], Except.ok ⟨"u", some [("status", JVal.num 2)], none⟩) :=
  (setJobStatusFromLeasedTo_guarded ⟨"u", some [("status", JVal.num 2)], none⟩
    [("status", JVal.num 2)] (JVal.num 2) "infra-err" rfl rfl).1 (by decide)

/-- C3: `LeaseJob` with an empty hostname performs no network call (empty
event trace), leaves the state unchanged and returns `(None, {})`, for every
state, execute flag and transport outcome. -/
theorem leaseJob_empty_hostname (s : ClientState) (execute : Bool)
    (response : Except Unit (Nat × QueueResponse)) :
    LeaseJob s "" execute response = ([], Except.ok (s, (none, []))) := by
  simp [LeaseJob]

/-- C4: on a successful queue response (HTTP success, no failing
`return_code`) whose job list is nonempty, `LeaseJob` returns exactly the
first entry of the list as the held lease, and the dispatch category is the
substring of that entry's test name before the first `/`. -/
theorem leaseJob_first_job (s : ClientState) (hostname : String)
    (execute : Bool) (code : Nat) (rj : QueueResponse) (job : Job)
    (rest : List Job) (tn : String)
    (hh : hostname ≠ "") (hcode : code = codes_ok)
    (hrc : rj.return_code = none ∨ rj.return_code = some "SUCCESS")
    (hjobs : rj.jobs = some (job :: rest))
    (htn : dictGet job "test_name" = some (JVal.str tn)) :
    ∃ s2 tr,
      LeaseJob s hostname execute (Except.ok (code, rj)) =
        (tr, Except.ok (s2,
          (some (String.mk (tn.data.takeWhile (fun c => c != '/'))), job))) := by
  have hbad : badReturnCode rj = false := by
    rcases hrc with h | h <;> simp [badReturnCode, h]
  subst hcode
  rw [← pySplitFirst_eq_takeWhile]
  cases execute
  · exact ⟨s, [Event.netPost "job_queue/v1/get"],
      by simp [LeaseJob, hh, hbad, leaseFromJobs, hjobs, htn]⟩
  · refine ⟨(StartHeartbeat { s with job := some job } "leased" 60).1,
      Event.netPost "job_queue/v1/get" ::
        (StartHeartbeat { s with job := some job } "leased" 60).2, ?_⟩
    simp [LeaseJob, hh, hbad, leaseFromJobs, hjobs, htn]

/-- Witness for C4: a queue response with one job whose test name is
`suite1/caseX` yields that job and the category `suite1`. -/
theorem leaseJob_first_job_witness :
    ∃ s2 tr,
      LeaseJob ⟨"u", some [], none⟩ "hostA" true
        (Except.ok (200, ⟨some "SUCCESS",
          some [[("test_name", JVal.str "suite1/caseX"),
                 ("status", JVal.num 0)]]⟩)) =
        (tr, Except.ok (s2,
          (some (String.mk ("suite1/caseX".data.takeWhile (fun c => c != '/'))),
           [("test_name", JVal.str "suite1/caseX"), ("status", JVal.num 0)]))) :=
  leaseJob_first_job ⟨"u", some [], none⟩ "hostA" true 200
    ⟨some "SUCCESS", some [[("test_name", JVal.str "suite1/caseX"),
      ("status", JVal.num 0)]]⟩
    [("test_name", JVal.str "suite1/caseX"), ("status", JVal.num 0)] []
    "suite1/caseX" (by decide) rfl (Or.inr rfl) rfl rfl

/-- C5: when the HTTP status code is not a success, or the response carries a
`return_code` other than `"SUCCESS"`, or the response lacks a `jobs` field,
`LeaseJob` performs exactly the one lease request (so no heartbeat is
started), leaves the state unchanged and returns the empty result. -/
theorem leaseJob_failure_paths (s : ClientState) (hostname : String)
    (execute : Bool) (code : Nat) (rj : QueueResponse)
    (hh : hostname ≠ "")
    (hbad : code ≠ codes_ok ∨
      (∃ rc, rj.return_code = some rc ∧ rc ≠ "SUCCESS") ∨ rj.jobs = none) :
    LeaseJob s hostname execute (Except.ok (code, rj)) =
      ([Event.netPost "job_queue/v1/get"], Except.ok (s, (none, []))) := by
  rcases hbad with h | ⟨rc, hrc, hne⟩ | h
  · simp [LeaseJob, hh, h]
  · by_cases hc : code = codes_ok
    · subst hc
      have hb : badReturnCode rj = true := by simp [badReturnCode, hrc, hne]
      simp [LeaseJob, hh, hb]
    · simp [LeaseJob, hh, hc]
  · by_cases hc : code = codes_ok
    · subst hc
      by_cases hb : badReturnCode rj = true
      · simp [LeaseJob, hh, hb]
      · simp only [Bool.not_eq_true] at hb
        simp [LeaseJob, hh, hb, leaseFromJobs, h]
    · simp [LeaseJob, hh, hc]

/-- Witness for C5: a 404 response makes `LeaseJob` return the empty result
with only the lease request in its trace. -/
theorem leaseJob_failure_paths_witness :
    LeaseJob ⟨"u", some [], none⟩ "hostA" true
      (Except.ok (404, ⟨some "SUCCESS", some []⟩)) =
      ([Event.netPost "job_queue/v1/get"],
       Except.ok (⟨"u", some [], none⟩, (none, []))) :=
  leaseJob_failure_paths ⟨"u", some [], none⟩ "hostA" true 404
    ⟨some "SUCCESS", some []⟩ (by decide) (Or.inl (by decide))

/-- C10: `LeaseJob` with the execute flag false, on a successful response
with a nonempty job list, returns the first job and its dispatch category
while leaving the client state (held lease and heartbeat thread) unchanged
and performing only the one lease request (no heartbeat start). -/
theorem leaseJob_no_execute_frame (s : ClientState) (hostname : String)
    (code : Nat) (rj : QueueResponse) (job : Job) (rest : List Job)
    (tn : String)
    (hh : hostname ≠ "") (hcode : code = codes_ok)
    (hrc : rj.return_code = none ∨ rj.return_code = some "SUCCESS")
    (hjobs : rj.jobs = some (job :: rest))
    (htn : dictGet job "test_name" = some (JVal.str tn)) :
    LeaseJob s hostname false (Except.ok (code, rj)) =
      ([Event.netPost "job_queue/v1/get"],
       Except.ok (s,
         (some (String.mk (tn.data.takeWhile (fun c => c != '/'))), job))) := by
  have hbad : badReturnCode rj = false := by
    rcases hrc with h | h <;> simp [badReturnCode, h]
  subst hcode
  rw [← pySplitFirst_eq_takeWhile]
  simp [LeaseJob, hh, hbad, leaseFromJobs, hjobs, htn]

/-- Witness for C10: with the execute flag false the state is returned
unchanged next to the first job and its category. -/
theorem leaseJob_no_execute_frame_witness :
    LeaseJob ⟨"u", some [], none⟩ "hostA" false
      (Except.ok (200, ⟨none,
        some [[("test_name", JVal.str "vts/vts-x")], [("test_name", JVal.str "other/y")]]⟩)) =
      ([Event.netPost "job_queue/v1/get"],
       Except.ok (⟨"u", some [], none⟩,
         (some (String.mk ("vts/vts-x".data.takeWhile (fun c => c != '/'))),
          [("test_name", JVal.str "vts/vts-x")]))) :=
  leaseJob_no_execute_frame ⟨"u", some [], none⟩ "hostA" 200
    ⟨none, some [[("test_name", JVal.str "vts/vts-x")],
      [("test_name", JVal.str "other/y")]]⟩
    [("test_name", JVal.str "vts/vts-x")] [[("test_name", JVal.str "other/y")]]
    "vts/vts-x" (by decide) rfl (Or.inl rfl) rfl rfl

theorem stopHeartbeat_trace_shape (s : ClientState)
    (status infra_log_url : String) (response : Except Unit Nat) :
    (StopHeartbeat s status infra_log_url response).1 = [] ∨
    ∃ rest, (StopHeartbeat s status infra_log_url response).1 =
      Event.cancelHeartbeat :: rest := by
  cases ht : s.heartbeat_thread with
  | none => left; simp [StopHeartbeat, ht]
  | some t =>
    right
    cases hj : s.job with
    | none => exact ⟨[], by simp [StopHeartbeat, ht, hj]⟩
    | some j =>
      rcases hset : SetJobStatusFromLeasedTo
          ⟨s.url, some j, some ⟨some false, t.status, t.update_interval⟩⟩
          status with ⟨ev1, ex⟩
      cases ex with
      | error e => exact ⟨ev1, by simp [StopHeartbeat, ht, hj, hset]⟩
      | ok s1 =>
        cases response with
        | error e =>
          exact ⟨ev1 ++ [Event.netPost "job_queue/v1/heartbeat"],
            by simp [StopHeartbeat, ht, hj, hset]⟩
        | ok code =>
          exact ⟨ev1 ++ [Event.netPost "job_queue/v1/heartbeat"],
            by simp [StopHeartbeat, ht, hj, hset]⟩

/-- C2: in every execution of `StopHeartbeat`, a status value is written
into the held lease only strictly after the heartbeat cancellation flag has
been set: every `writeStatus` event in the trace is preceded by an earlier
`cancelHeartbeat` event. -/
theorem stopHeartbeat_cancel_before_write (s : ClientState)
    (status infra_log_url : String) (response : Except Unit Nat)
    (jdx n : Nat)
    (hw : ((StopHeartbeat s status infra_log_url response).1).get? jdx =
      some (Event.writeStatus n)) :
    ∃ i, i < jdx ∧
      ((StopHeartbeat s status infra_log_url response).1).get? i =
        some Event.cancelHeartbeat := by
  rcases stopHeartbeat_trace_shape s status infra_log_url response with h | ⟨rest, h⟩
  · rw [h] at hw
    simp at hw
  · cases jdx with
    | zero => rw [h] at hw; simp at hw
    | succ k => exact ⟨0, Nat.succ_pos k, by rw [h]; rfl⟩

/-- Witness for C2: finalizing a leased job to `complete` puts the status
write at index 1 of the trace, after the cancellation at index 0. -/
theorem stopHeartbeat_cancel_before_write_witness :
    ∃ i, i < 1 ∧
      ((StopHeartbeat
          ⟨"u", some [("status", JVal.num 1)], some ⟨none, "leased", 60⟩⟩
          "complete" "log" (Except.ok 200)).1).get? i =
        some Event.cancelHeartbeat :=
  stopHeartbeat_cancel_before_write
    ⟨"u", some [("status", JVal.num 1)], some ⟨none, "leased", 60⟩⟩
    "complete" "log" (Except.ok 200) 1 2 rfl

theorem setJobStatusFromLeasedTo_frame (s : ClientState) (status : String)
    (ev : List Event) (s1 : ClientState)
    (h : SetJobStatusFromLeasedTo s status = (ev, Except.ok s1)) :
    s1.heartbeat_thread = s.heartbeat_thread := by
  have hl : jobStatusLookup "leased" = some 1 := rfl
  cases hj : s.job with
  | none =>
    simp only [SetJobStatusFromLeasedTo, hj, Prod.mk.injEq, Except.ok.injEq] at h
    obtain ⟨-, rfl⟩ := h
    rfl
  | some j =>
    cases hv : dictGet j "status" with
    | none => simp [SetJobStatusFromLeasedTo, hj, hv] at h
    | some v =>
      by_cases hveq : v = JVal.num 1
      · cases htgt : jobStatusLookup status with
        | none =>
          simp [SetJobStatusFromLeasedTo, hj, hv, hl, Nat.cast_one, hveq, htgt] at h
        | some n =>
          simp only [SetJobStatusFromLeasedTo, hj, hv, hl, Nat.cast_one, hveq,
            if_pos rfl, if_true, htgt, Prod.mk.injEq, Except.ok.injEq] at h
          obtain ⟨-, rfl⟩ := h
          rfl
      · simp only [SetJobStatusFromLeasedTo, hj, hv, hl, Nat.cast_one] at h
        rw [if_neg hveq] at h
        simp only [Prod.mk.injEq, Except.ok.injEq] at h
        obtain ⟨-, rfl⟩ := h
        rfl

theorem stopHeartbeat_ok_inv (s : ClientState) (tgt ilog : String)
    (resp : Except Unit Nat) (tr : List Event) (s2 : ClientState)
    (hrun : StopHeartbeat s tgt ilog resp = (tr, Except.ok s2)) :
    ∃ t, s.heartbeat_thread = some t ∧
      s2.heartbeat_thread = some ⟨some false, t.status, t.update_interval⟩ ∧
      (s.job ≠ none → s2.job = none) := by
  cases ht : s.heartbeat_thread with
  | none => simp [StopHeartbeat, ht] at hrun
  | some t =>
    refine ⟨t, rfl, ?_⟩
    cases hj : s.job with
    | none =>
      simp only [StopHeartbeat, ht, hj, Prod.mk.injEq, Except.ok.injEq] at hrun
      obtain ⟨-, rfl⟩ := hrun
      exact ⟨rfl, fun h => absurd rfl h⟩
    | some j =>
      rcases hset : SetJobStatusFromLeasedTo
          ⟨s.url, some j, some ⟨some false, t.status, t.update_interval⟩⟩
          tgt with ⟨ev1, ex⟩
      cases ex with
      | error e => simp [StopHeartbeat, ht, hj, hset] at hrun
      | ok s1 =>
        cases resp with
        | error e => simp [StopHeartbeat, ht, hj, hset] at hrun
        | ok code =>
          simp only [StopHeartbeat, ht, hj, hset, Prod.mk.injEq,
            Except.ok.injEq] at hrun
          obtain ⟨-, rfl⟩ := hrun
          have hframe := setJobStatusFromLeasedTo_frame _ tgt ev1 s1 hset
          refine ⟨by simpa using hframe, fun _ => rfl⟩

theorem stopHeartbeat_noop_when_cleared (s : ClientState) (t : HBThread)
    (tgt ilog : String) (resp : Except Unit Nat)
    (hj : s.job = none) (ht : s.heartbeat_thread = some t)
    (hk : t.keep_running = some false) :
    StopHeartbeat s tgt ilog resp = ([Event.cancelHeartbeat], Except.ok s) := by
  have h1 : ({ t with keep_running := some false } : HBThread) = t := by
    cases t
    simp_all
  have hs : (⟨s.url, none, some t⟩ : ClientState) = s := by
    cases s
    simp_all
  simp only [StopHeartbeat, ht, h1, hj, hs]

theorem checkBootUpStatus_no_job (s : ClientState) (h : s.job = none) :
    CheckBootUpStatus s = Except.ok false := by
  simp [CheckBootUpStatus, h]

theorem getJobTestType_no_job (s : ClientState) (h : s.job = none) :
    GetJobTestType s = 0 := by
  simp [GetJobTestType, h]

/-- C7: after a completed `StopHeartbeat` on a client holding a lease, the
held lease is cleared: `CheckBootUpStatus` answers false, `GetJobTestType`
answers 0, and every repeated `StopHeartbeat` call is a no-op guarded by
the absence of a held lease, returning the state unchanged with no network
event in its trace. -/
theorem stopHeartbeat_clears_lease (s : ClientState) (tgt ilog : String)
    (resp : Except Unit Nat) (j : Job) (tr : List Event) (s2 : ClientState)
    (hj : s.job = some j)
    (hrun : StopHeartbeat s tgt ilog resp = (tr, Except.ok s2)) :
    s2.job = none ∧
    CheckBootUpStatus s2 = Except.ok false ∧
    GetJobTestType s2 = 0 ∧
    ∀ tgt2 ilog2 resp2,
      StopHeartbeat s2 tgt2 ilog2 resp2 =
        ([Event.cancelHeartbeat], Except.ok s2) := by
  obtain ⟨t, ht, ht2, hjob2⟩ := stopHeartbeat_ok_inv s tgt ilog resp tr s2 hrun
  have hj2 : s2.job = none := hjob2 (by rw [hj]; simp)
  refine ⟨hj2, checkBootUpStatus_no_job s2 hj2, getJobTestType_no_job s2 hj2, ?_⟩
  intro tgt2 ilog2 resp2
  exact stopHeartbeat_noop_when_cleared s2 ⟨some false, t.status, t.update_interval⟩
    tgt2 ilog2 resp2 hj2 ht2 rfl

/-- Witness for C7: after finalizing a concrete leased job, a repeated stop
call returns the cleared state unchanged with only the cancellation event. -/
theorem stopHeartbeat_clears_lease_witness :
    StopHeartbeat ⟨"u", none, some ⟨some false, "leased", 60⟩⟩
      "infra-err" "" (Except.ok 200) =
      ([Event.cancelHeartbeat],
       Except.ok ⟨"u", none, some ⟨some false, "leased", 60⟩⟩) :=
  (stopHeartbeat_clears_lease
    ⟨"u", some [("status", JVal.num 1), ("test_name", JVal.str "a/b")],
      some ⟨none, "leased", 60⟩⟩
    "complete" "L" (Except.ok 200)
    [("status", JVal.num 1), ("test_name", JVal.str "a/b")]
    [Event.cancelHeartbeat, Event.writeStatus 2,
      Event.netPost "job_queue/v1/heartbeat"]
    ⟨"u", none, some ⟨some false, "leased", 60⟩⟩
    rfl rfl).2.2.2 "infra-err" "" (Except.ok 200)

/-- C8: `CheckBootUpStatus` answers true for a held lease whose status is
any enumeration value other than `bootup-err` (5), answers false for a held
lease at `bootup-err`, and answers false when no lease is held (job `None`
or the empty record). -/
theorem checkBootUpStatus_cases (s : ClientState) (j : Job) (k : Nat)
    (hj : s.job = some j) (hne : j ≠ [])
    (hst : dictGet j "status" = some (JVal.num k)) (hk : k ≤ 5) :
    (k ≠ 5 → CheckBootUpStatus s = Except.ok true) ∧
    (k = 5 → CheckBootUpStatus s = Except.ok false) ∧
    (∀ s2 : ClientState, s2.job = none ∨ s2.job = some [] →
      CheckBootUpStatus s2 = Except.ok false) := by
  have hb : jobStatusLookup "bootup-err" = some 5 := rfl
  have hje : j.isEmpty = false := by
    cases j with
    | nil => exact absurd rfl hne
    | cons a l => rfl
  refine ⟨?_, ?_, ?_⟩
  · intro hk5
    simp only [CheckBootUpStatus, hj, hje, hst, hb, Bool.false_eq_true,
      if_false, Except.ok.injEq, decide_eq_true_eq, ne_eq, JVal.num.injEq]
    exact_mod_cast hk5
  · intro hk5
    subst hk5
    simp [CheckBootUpStatus, hj, hje, hst, hb]
  · rintro s2 (h | h) <;> simp [CheckBootUpStatus, h]

/-- Witness for C8: a held lease at status `infra-err` (3) reports a
successful boot. -/
theorem checkBootUpStatus_cases_witness :
    CheckBootUpStatus ⟨"u", some [("status", JVal.num 3)], none⟩ =
      Except.ok true :=
  (checkBootUpStatus_cases ⟨"u", some [("status", JVal.num 3)], none⟩
    [("status", JVal.num 3)] 3 rfl (by decide) rfl (by decide)).1 (by decide)

/-- C9: `GetJobTestType` returns the held lease's `test_type` value
converted to an integer, and returns the default 0 when the field is
absent, when its value does not parse as an integer, and when no lease is
held; it is a total function, so a malformed value never surfaces as a
fault. -/
theorem getJobTestType_cases (s : ClientState) (j : Job) (v : JVal)
    (hj : s.job = some j) (hne : j ≠ []) :
    (∀ n, dictGet j "test_type" = some v → pyToInt v = some n →
      GetJobTestType s = n) ∧
    (dictGet j "test_type" = none → GetJobTestType s = 0) ∧
    (dictGet j "test_type" = some v → pyToInt v = none →
      GetJobTestType s = 0) ∧
    (∀ s2 : ClientState, s2.job = none ∨ s2.job = some [] →
      GetJobTestType s2 = 0) := by
  have hje : j.isEmpty = false := by
    cases j with
    | nil => exact absurd rfl hne
    | cons a l => rfl
  refine ⟨?_, ?_, ?_, ?_⟩
  · intro n htt hv
    simp [GetJobTestType, hj, hje, htt, hv]
  · intro htt
    simp [GetJobTestType, hj, hje, htt]
  · intro htt hv
    simp [GetJobTestType, hj, hje, htt, hv]
  · rintro s2 (h | h) <;> simp [GetJobTestType, h]

/-- Witness for C9: the string value `" 42 "` is converted to the integer
42, as Python `int` strips the surrounding whitespace. -/
theorem getJobTestType_cases_witness :
    GetJobTestType ⟨"u", some [("test_type", JVal.str " 42 ")], none⟩ = 42 :=
  (getJobTestType_cases ⟨"u", some [("test_type", JVal.str " 42 ")], none⟩
    [("test_type", JVal.str " 42 ")] (JVal.str " 42 ") rfl (by decide)).1
    42 rfl rfl

/-- C6 counterexample: the claim that no transport exception propagates
uncaught is false at a concrete input. `LeaseJob` does not wrap its
`requests.post` in a try/except (unlike `UploadDeviceInfo` and
`UploadHostVersion`), so a raised `ConnectionError` escapes `LeaseJob` to
the caller instead of being resolved into a success/failure signal. -/
theorem leaseJob_connection_error_escapes :
    (LeaseJob ⟨"u", some [], none⟩ "hostA" true (Except.error ())).2 =
      Except.error () := rfl

/-- C6 amended: lease acquisition, the heartbeat tick and the final status
push each resolve a non-success HTTP status code into a logged
success/failure outcome and return normally, but a connection failure
raised by the transport propagates uncaught out of each of these three
operations (only the device-info and host-version uploads catch it). -/
theorem netOps_error_signalling (s : ClientState) (t : HBThread) (j : Job)
    (hostname tgt ilog : String) (execute : Bool) (code : Nat)
    (rj : QueueResponse) (e : Unit)
    (hh : hostname ≠ "") (hcode : code ≠ codes_ok)
    (ht : s.heartbeat_thread = some t) (hj : s.job = some j)
    (hst : dictGet j "status" = some (JVal.num 2)) :
    (LeaseJob s hostname execute (Except.ok (code, rj)) =
      ([Event.netPost "job_queue/v1/get"], Except.ok (s, (none, [])))) ∧
    ((LeaseJob s hostname execute (Except.error e)).2 = Except.error e) ∧
    ((heartbeatTick none (Except.ok code)).2 = Except.ok true) ∧
    ((heartbeatTick none (Except.error e)).2 = Except.error e) ∧
    (∃ s2, (StopHeartbeat s tgt ilog (Except.ok code)).2 = Except.ok s2 ∧
      s2.job = none) ∧
    ((StopHeartbeat s tgt ilog (Except.error e)).2 = Except.error e) := by
  have hguard : SetJobStatusFromLeasedTo
      ⟨s.url, some j, some ⟨some false, t.status, t.update_interval⟩⟩ tgt =
      ([], Except.ok ⟨s.url, some j, some ⟨some false, t.status, t.update_interval⟩⟩) := by
    have hl : jobStatusLookup "leased" = some 1 := rfl
    simp only [SetJobStatusFromLeasedTo, hj, hst, hl, Nat.cast_one]
    rw [if_neg (by decide)]
  refine ⟨by simp [LeaseJob, hh, hcode], by simp [LeaseJob, hh], rfl, rfl, ?_, ?_⟩
  · refine ⟨⟨s.url, none, some ⟨some false, t.status, t.update_interval⟩⟩, ?_, rfl⟩
    simp [StopHeartbeat, ht, hj, hguard]
  · simp [StopHeartbeat, ht, hj, hguard]

/-- Witness for C6 amended: at a concrete state and a 503 status code the
three operations return normally, while a connection error escapes. -/
theorem netOps_error_signalling_witness :
    (LeaseJob ⟨"u", some [("status", JVal.num 2)], some ⟨none, "leased", 60⟩⟩
      "hostA" true (Except.ok (503, ⟨none, none⟩)) =
      ([Event.netPost "job_queue/v1/get"],
       Except.ok (⟨"u", some [("status", JVal.num 2)], some ⟨none, "leased", 60⟩⟩,
         (none, [])))) ∧
    ((LeaseJob ⟨"u", some [("status", JVal.num 2)], some ⟨none, "leased", 60⟩⟩
      "hostA" true (Except.error ())).2 = Except.error ()) ∧
    ((heartbeatTick none (Except.ok 503)).2 = Except.ok true) ∧
    ((heartbeatTick none (Except.error ())).2 = Except.error ()) ∧
    (∃ s2, (StopHeartbeat
        ⟨"u", some [("status", JVal.num 2)], some ⟨none, "leased", 60⟩⟩
        "complete" "log" (Except.ok 503)).2 = Except.ok s2 ∧ s2.job = none) ∧
    ((StopHeartbeat ⟨"u", some [("status", JVal.num 2)], some ⟨none, "leased", 60⟩⟩
      "complete" "log" (Except.error ())).2 = Except.error ()) :=
  netOps_error_signalling
    ⟨"u", some [("status", JVal.num 2)], some ⟨none, "leased", 60⟩⟩
    ⟨none, "leased", 60⟩ [("status", JVal.num 2)]
    "hostA" "complete" "log" true 503 ⟨none, none⟩ ()
    (by decide) (by decide) rfl rfl rfl

end VtiEndpoint
